import Mathlib

/-!
Shallow embedding of the event-driven task-lifecycle core of the
`evolution-of-todo-phase5-cloud` repository, together with theorems checking
its natural-language specification against the code.

Embedded components:
* `RecurrenceService` (backend/services/recurrence_service.py): next-occurrence
  calculation and pattern/interval validation.
* `ReminderService` (backend/services/reminder_service.py): offset parsing,
  reminder-time calculation, due-date and offset validation.
* Notification dispatcher (services/notification-service/notification_service.py):
  `process_reminder_delivery` and `deliver_notification_with_retry`.
* Recurring task generator (services/recurring-task-service/recurring_task_service.py):
  `process_recurring_task`.
* Connection broadcast hub (services/websocket-service/websocket_service.py):
  `ConnectionManager` and the `/ws/{user_id}` endpoint admission logic.

Machine integers of the source are modelled as `Nat`/`Int` (Python integers are
unbounded, so no wrap-around is involved); Python `None`-returning functions
become `Option`, raised exceptions become `Except`.
-/

/-! ## Calendar arithmetic (mirrors Python `datetime` / `dateutil.relativedelta`) -/

/-- A Python `datetime` without timezone information, as used by the
recurrence calculator (year/month/day/hour/minute/second; microseconds are
never touched by the code and are omitted). -/
structure PyDateTime where
  year : Nat
  month : Nat
  day : Nat
  hour : Nat
  minute : Nat
  second : Nat
deriving DecidableEq, Repr

/-- Gregorian leap-year rule, as implemented by Python `calendar.isleap`. -/
def isLeapYear (y : Nat) : Bool :=
  y % 4 == 0 && (y % 100 != 0 || y % 400 == 0)

/-- Days in a month of a given year (Python `calendar.monthrange(y, m)[1]`). -/
def daysInMonth (y m : Nat) : Nat :=
  if m == 2 then (if isLeapYear y then 29 else 28)
  else if m == 4 || m == 6 || m == 9 || m == 11 then 30
  else 31

/-- Advance a datetime by exactly one calendar day (the successor step of
Python `timedelta(days=·)` addition). -/
def nextDay (d : PyDateTime) : PyDateTime :=
  if d.day < daysInMonth d.year d.month then { d with day := d.day + 1 }
  else if d.month < 12 then { d with month := d.month + 1, day := 1 }
  else { d with year := d.year + 1, month := 1, day := 1 }

/-- Python `d + timedelta(days=n)` for `n ≥ 0`: `n`-fold day successor.
Time-of-day is untouched. -/
def addDays (d : PyDateTime) (n : Nat) : PyDateTime :=
  Nat.iterate nextDay n d

/-- Python `d + relativedelta(months=n)` for `n ≥ 0`: advance the (year, month)
pair by `n` months, then clamp the day to the last valid day of the landing
month (`dateutil` computes `day = min(monthrange(year, month)[1], day)`).
Time-of-day is untouched. -/
def addMonths (d : PyDateTime) (n : Nat) : PyDateTime :=
  let total := d.year * 12 + (d.month - 1) + n
  let y := total / 12
  let m := total % 12 + 1
  { d with year := y, month := m, day := min d.day (daysInMonth y m) }

/-! ## RecurrenceService (backend/services/recurrence_service.py) -/

/-- Source constant `RecurrenceService.VALID_PATTERNS`. -/
def VALID_PATTERNS : List String := ["daily", "weekly", "monthly"]

/-- Embeds `RecurrenceService.calculate_next_occurrence(current_date, pattern, interval)`.
A raised `ValueError` is modelled as `Except.error` carrying the message. -/
def calculate_next_occurrence (current_date : PyDateTime) (pattern : String)
    (interval : Nat) : Except String PyDateTime :=
  if pattern ∉ VALID_PATTERNS then
    .error ("Invalid recurrence pattern: " ++ pattern ++
      ". Must be one of: daily, weekly, monthly")
  else if pattern == "daily" then
    .ok (addDays current_date interval)
  else if pattern == "weekly" then
    .ok (addDays current_date (7 * interval))
  else if pattern == "monthly" then
    .ok (addMonths current_date interval)
  else
    .error ("Unsupported pattern: " ++ pattern)

/-- Embeds the ranges `RecurrenceService.DAILY_INTERVAL_RANGE` and friends, and
`RecurrenceService.validate_recurrence_pattern(pattern, interval)`: returns
`True` on success and raises `ValueError` (here `Except.error`) with a
bounds-naming message otherwise.  The interval is an `Int` because Python
integers may be negative. -/
def validate_recurrence_pattern (pattern : String) (interval : Int) :
    Except String Bool :=
  if pattern ∉ VALID_PATTERNS then
    .error ("Invalid pattern: " ++ pattern ++ ". Must be one of: daily, weekly, monthly")
  else if pattern == "daily" then
    if ¬ (1 ≤ interval ∧ interval ≤ 365) then
      .error ("Daily interval must be 1-365, got " ++ toString interval)
    else .ok true
  else if pattern == "weekly" then
    if ¬ (1 ≤ interval ∧ interval ≤ 52) then
      .error ("Weekly interval must be 1-52, got " ++ toString interval)
    else .ok true
  else if pattern == "monthly" then
    if ¬ (1 ≤ interval ∧ interval ≤ 12) then
      .error ("Monthly interval must be 1-12, got " ++ toString interval)
    else .ok true
  else .ok true

/-! ## ReminderService (backend/services/reminder_service.py) -/

/-- ASCII decimal digit, the `\d` character class on the ASCII strings the
service handles. -/
def isPyDigit (c : Char) : Bool := '0' ≤ c && c ≤ '9'

/-- Python regex `\s` (ASCII range): space, tab, newline, carriage return,
vertical tab, form feed. -/
def isPySpace (c : Char) : Bool :=
  c == ' ' || c == '\t' || c == '\n' || c == '\r' || c == '\x0b' || c == '\x0c'

/-- Numeric value of a digit run (`int(match.group(1))`). -/
def digitsToNat (ds : List Char) : Nat :=
  ds.foldl (fun a c => a * 10 + (c.toNat - '0'.toNat)) 0

/-- After the unit word of a pattern `(\d+)\s*<unit>s?\s+before`: consume the
optional `s`, then at least one whitespace, then the literal `before`.
Returns the remainder after `before` when the tail matches.  The greedy
handling of `s?` and `\s+` is equivalent to the backtracking regex because
`s` is not whitespace and `before` starts with a non-whitespace letter. -/
def tailAfterUnit (cs : List Char) : Option (List Char) :=
  let r := match cs with
    | 's' :: rest => rest
    | rest => rest
  match r with
  | [] => none
  | c :: rest =>
    if isPySpace c then
      let rest' := rest.dropWhile isPySpace
      if ("before".data).isPrefixOf rest' then some (rest'.drop 6) else none
    else none

/-- Attempt of the regex `(\d+)\s*<unit>s?\s+before` anchored at the head of
`cs`; yields `group(1)` as a number on success. -/
def matchUnitAt (unit : List Char) (cs : List Char) : Option Nat :=
  let ds := cs.takeWhile isPyDigit
  if ds.isEmpty then none
  else
    let r1 := cs.dropWhile isPyDigit
    let r2 := r1.dropWhile isPySpace
    if unit.isPrefixOf r2 then
      match tailAfterUnit (r2.drop unit.length) with
      | some _ => some (digitsToNat ds)
      | none => none
    else none

/-- Models `re.search` for the pattern `(\d+)\s*<unit>s?\s+before`: try every start
position left to right (leftmost match). -/
def searchUnit (unit : List Char) : List Char → Option Nat
  | [] => none
  | c :: rest =>
    match matchUnitAt unit (c :: rest) with
    | some n => some n
    | none => searchUnit unit rest

/-- Python `str.lower` on the ASCII characters the service handles. -/
def pyToLower (c : Char) : Char :=
  if 'A' ≤ c && c ≤ 'Z' then Char.ofNat (c.toNat + 32) else c

/-- Computes `offset_str.lower().strip()` on the underlying characters. -/
def pyNormalize (s : String) : List Char :=
  (((s.data.map pyToLower).dropWhile isPySpace).reverse.dropWhile isPySpace).reverse

/-- Embeds `ReminderService.parse_reminder_offset(offset_str)`: a `timedelta` is
modelled by its total seconds.  The three unit patterns are tried in the
source's order: minutes, then hours, then days. -/
def parse_reminder_offset (offset_str : String) : Option Int :=
  if offset_str = "" then none
  else
    let t := pyNormalize offset_str
    match searchUnit "minute".data t with
    | some n => some (60 * (n : Int))
    | none =>
      match searchUnit "hour".data t with
      | some n => some (3600 * (n : Int))
      | none =>
        match searchUnit "day".data t with
        | some n => some (86400 * (n : Int))
        | none => none

/-- Spec-side predicate (from the spec's words, for comparison with the code):
the whole string, lowercased and stripped, is exactly of the form
`"<N> <unit> before"` with unit ∈ {minute(s), hour(s), day(s)} — an anchored
match with nothing before the number and nothing after `before`. -/
def specOffsetForm (s : String) : Bool :=
  let t := pyNormalize s
  [("minute".data : List Char), "hour".data, "day".data].any fun unit =>
    let ds := t.takeWhile isPyDigit
    let r1 := t.dropWhile isPyDigit
    let r2 := r1.dropWhile isPySpace
    !ds.isEmpty && unit.isPrefixOf r2 &&
      (match tailAfterUnit (r2.drop unit.length) with
       | some [] => true
       | _ => false)

/-- Spec-side predicate: some position of the normalized string starts a match
of `(\d+)\s*<unit>s?\s+before` (i.e. the string *contains* such a substring). -/
def containsUnitMatch (unit : List Char) (cs : List Char) : Bool :=
  cs.tails.any fun t => (matchUnitAt unit t).isSome

/-- A timezone-qualified or naive Python `datetime`: absolute seconds plus an
awareness flag (comparison between a naive and an aware value raises in
Python; that is modelled explicitly where it can occur). -/
structure TZDateTime where
  seconds : Int
  aware : Bool
deriving DecidableEq, Repr

/-- Embeds `ReminderService.calculate_reminder_time(due_date, offset)`:
`due_date - offset`, awareness preserved. -/
def calculate_reminder_time (due_date : TZDateTime) (offset : Int) : TZDateTime :=
  { due_date with seconds := due_date.seconds - offset }

/-- Embeds `ReminderService.validate_due_date(due_date, allow_past, reference_time)`.
The implicit `datetime.now(UTC)` default is passed explicitly as
`reference_time`. -/
def validate_due_date (due_date : TZDateTime) (allow_past : Bool)
    (reference_time : TZDateTime) : Bool × Option String :=
  if due_date.aware = false then
    (false, some "Due date must be timezone-aware (ISO8601 with timezone)")
  else
    -- naive reference times are coerced to UTC by `replace(tzinfo=UTC)`;
    -- only the comparison of the seconds remains
    if due_date.seconds < reference_time.seconds && !allow_past then
      (false, some "Due date must be in the future")
    else (true, none)

/-- Embeds `ReminderService.validate_reminder_offset(offset_str, due_date)` with the
wall clock `datetime.now(UTC)` passed explicitly as `now`.  Comparing the
naive reminder time of a naive due date against the aware `now` raises
`TypeError` in Python, modelled as `Except.error`.  The real past-time message
interpolates `reminder_time.isoformat()`; the epoch seconds stand in for it. -/
def validate_reminder_offset (offset_str : String) (due_date : TZDateTime)
    (now : Int) : Except String (Bool × Option String) :=
  match parse_reminder_offset offset_str with
  | none => .ok (false, some ("Invalid reminder offset format. " ++
      "Use format like '1 hour before', '30 minutes before', or '1 day before'"))
  | some offset =>
    let reminder_time := calculate_reminder_time due_date offset
    if reminder_time.aware = false then
      .error "TypeError: cannot compare offset-naive and offset-aware datetimes"
    else if reminder_time.seconds < now then
      .ok (false, some ("Reminder time (" ++ toString reminder_time.seconds ++
        ") is in the past. Due date might be too soon or offset too large."))
    else .ok (true, none)

/-! ## Notification dispatcher (services/notification-service/notification_service.py) -/

/-- Outcome of one webhook POST: an HTTP status code, an `httpx` timeout, or
any other network error. -/
inductive WebhookResult where
  | status (code : Nat)
  | timeout
  | netError
deriving DecidableEq, Repr

/-- Success test `200 <= response.status_code < 300`; timeouts and errors never succeed. -/
def is2xx : WebhookResult → Bool
  | .status c => 200 ≤ c && c < 300
  | .timeout => false
  | .netError => false

/-- Observable outcome of `deliver_notification_with_retry`: whether a 2xx was
reached, how many POSTs were made, the `retry_count` written to the stored
reminder, and the backoff sleeps performed (in order). -/
structure DeliveryResult where
  success : Bool
  attempts : Nat
  retry_count : Nat
  waits : List Nat
deriving DecidableEq, Repr

/-- The retry loop `for attempt in range(max_retries + 1)` of
`deliver_notification_with_retry`, with the environment's webhook responses
given as an oracle indexed by (0-based) attempt number.  On a 2xx at attempt
`a` the code writes `retry_count = a` and returns `True`; otherwise it sleeps
`2 ** (attempt + 1)` units whenever attempts remain, and after the last
failure writes `retry_count = max_retries + 1` and returns `False`. -/
def deliverGo (webhook : Nat → WebhookResult) (attempt : Nat) :
    Nat → DeliveryResult
  | 0 =>
    if is2xx (webhook attempt) then ⟨true, attempt + 1, attempt, []⟩
    else ⟨false, attempt + 1, attempt + 1, []⟩
  | remaining + 1 =>
    if is2xx (webhook attempt) then ⟨true, attempt + 1, attempt, []⟩
    else
      let rest := deliverGo webhook (attempt + 1) remaining
      ⟨rest.success, rest.attempts, rest.retry_count, 2 ^ (attempt + 1) :: rest.waits⟩

/-- Embeds `deliver_notification_with_retry(reminder, task, max_retries)` (the
service always calls it with `max_retries=3`). -/
def deliver_notification_with_retry (webhook : Nat → WebhookResult)
    (max_retries : Nat) : DeliveryResult :=
  deliverGo webhook 0 max_retries

/-- A row of the `Reminder` table, as read and written by the dispatcher. -/
structure ReminderRec where
  id : Nat
  task_id : Nat
  user_id : String
  reminder_time : Int
  status : String
  sent_at : Option Int
  retry_count : Nat
deriving DecidableEq, Repr

/-- A row of the `Task` table, as read by the dispatcher. -/
structure TaskRec where
  id : Nat
  user_id : String
  title : String
  description : String
  completed : Bool
  due_date : Option Int
deriving DecidableEq, Repr

/-- The database state visible to the notification service. -/
structure NotificationDB where
  reminders : List ReminderRec
  tasks : List TaskRec
deriving DecidableEq, Repr

/-- Query `select(Reminder).where(Reminder.id == reminder_id) … .first()`. -/
def findReminder (db : NotificationDB) (rid : Nat) : Option ReminderRec :=
  db.reminders.find? (fun r => r.id == rid)

/-- Query `select(Task).where(Task.id == reminder.task_id) … .first()`. -/
def findTask (db : NotificationDB) (tid : Nat) : Option TaskRec :=
  db.tasks.find? (fun t => t.id == tid)

/-- Committing a mutated reminder row back to the database. -/
def setReminder (db : NotificationDB) (r : ReminderRec) : NotificationDB :=
  { db with reminders := db.reminders.map (fun x => if x.id == r.id then r else x) }

/-- The `"status"` field of the JSON response dict. -/
inductive DispatchStatus where
  | success
  | error
deriving DecidableEq, Repr

/-- The response dict of `process_reminder_delivery` (status and message). -/
structure DispatchResponse where
  status : DispatchStatus
  message : String
deriving DecidableEq, Repr

/-- Embeds `process_reminder_delivery(reminder_id)`.  Output: the database after the
call, the response, and the number of webhook POSTs performed.  The clock
`datetime.now(UTC)` is the explicit `now`; webhook responses come from the
`webhook` oracle. -/
def process_reminder_delivery (webhook : Nat → WebhookResult) (now : Int)
    (db : NotificationDB) (reminder_id : Nat) :
    NotificationDB × DispatchResponse × Nat :=
  match findReminder db reminder_id with
  | none => (db, ⟨.error, "Reminder not found"⟩, 0)
  | some reminder =>
    if reminder.status == "sent" then
      (db, ⟨.success, "Reminder already sent (idempotent)"⟩, 0)
    else
      match findTask db reminder.task_id with
      | none =>
        (setReminder db { reminder with status := "failed" },
         ⟨.error, "Task not found (deleted)"⟩, 0)
      | some task =>
        if task.completed then
          (setReminder db { reminder with status := "sent", sent_at := some now },
           ⟨.success, "Task already completed, reminder skipped"⟩, 0)
        else
          let d := deliver_notification_with_retry webhook 3
          let reminder' := { reminder with retry_count := d.retry_count }
          if d.success then
            (setReminder db { reminder' with status := "sent", sent_at := some now },
             ⟨.success, "Reminder delivered successfully"⟩, d.attempts)
          else
            (setReminder db { reminder' with status := "failed" },
             ⟨.error, "Reminder delivery failed after retries"⟩, d.attempts)

/-- First 0-based attempt index `< n` at which the webhook answers 2xx. -/
def firstSuccessBefore (webhook : Nat → WebhookResult) (n : Nat) : Option Nat :=
  (List.range n).find? (fun i => is2xx (webhook i))

/-! ## Recurring task generator (services/recurring-task-service/recurring_task_service.py) -/

/-- A row of the `Task` table, as read and written by the generator (the
fields the generator copies verbatim plus the keys of its existence check). -/
structure GTask where
  id : Nat
  user_id : String
  title : String
  description : String
  completed : Bool
  priority : String
  tags : Option String
  due_date : Option PyDateTime
  recurrence_id : Option Nat
deriving DecidableEq, Repr

/-- A row of the `RecurrenceRule` table. -/
structure RecurrenceRuleRec where
  id : Nat
  pattern : String
  interval : Nat
deriving DecidableEq, Repr

/-- The task data carried by a `task.completed` event. -/
structure TaskEventData where
  title : String
  description : String
  priority : String
  tags : Option String
  due_date : Option PyDateTime
deriving DecidableEq, Repr

/-- The `"status"` values the consumer returns to Dapr. -/
inductive ConsumeStatus where
  | SUCCESS
  | DROP
  | RETRY
deriving DecidableEq, Repr

/-- The consumer's response dict (status and message). -/
structure ConsumeResult where
  status : ConsumeStatus
  message : String
deriving DecidableEq, Repr

/-- The generator's idempotency predicate: the `select(Task).where(...)`
conditions `recurrence_id == rid, user_id == uid, due_date == next, completed
== False`. -/
def matchesNextInstance (recurrence_id : Nat) (user_id : String)
    (due : PyDateTime) (t : GTask) : Bool :=
  t.recurrence_id == some recurrence_id && t.user_id == user_id &&
    t.due_date == some due && t.completed == false

/-- Embeds `process_recurring_task(event_id, user_id, task_data, recurrence_id)`.
The database's rule and task tables are explicit; `new_id` stands for the
fresh `uuid4()`.  A `ValueError` from `calculate_next_occurrence` is caught by
the generic handler, which rolls back and returns `RETRY`. -/
def process_recurring_task (rules : List RecurrenceRuleRec) (new_id : Nat)
    (tasks : List GTask) (user_id : String) (task_data : TaskEventData)
    (recurrence_id : Nat) : List GTask × ConsumeResult :=
  match rules.find? (fun r => r.id == recurrence_id) with
  | none => (tasks, ⟨.DROP, "RecurrenceRule not found"⟩)
  | some rule =>
    match task_data.due_date with
    | none => (tasks, ⟨.DROP, "Task has no due_date"⟩)
    | some current_due_date =>
      match calculate_next_occurrence current_due_date rule.pattern rule.interval with
      | .error e => (tasks, ⟨.RETRY, e⟩)
      | .ok next_due_date =>
        match tasks.find? (matchesNextInstance recurrence_id user_id next_due_date) with
        | some _ => (tasks, ⟨.SUCCESS, "Next instance already exists (idempotent)"⟩)
        | none =>
          let new_task : GTask :=
            { id := new_id, user_id := user_id, title := task_data.title,
              description := task_data.description, completed := false,
              priority := task_data.priority, tags := task_data.tags,
              due_date := some next_due_date, recurrence_id := some recurrence_id }
          (tasks ++ [new_task], ⟨.SUCCESS, "Next task instance created"⟩)

/-- Number of non-completed generated instances for a given
(recurrence link, owner, due date) key. -/
def countNextInstances (tasks : List GTask) (recurrence_id : Nat)
    (user_id : String) (due : PyDateTime) : Nat :=
  tasks.countP (matchesNextInstance recurrence_id user_id due)

/-! ## Connection broadcast hub (services/websocket-service/websocket_service.py) -/

/-- WebSocket objects are identified by an id; actual network sends are the
oracle `sendOk` (a failing send raises in `send_json`). -/
abbrev ConnId := Nat

/-- Lookup in a `Dict[str, …]` modelled as an association list. -/
def lookupEntry {α : Type} (m : List (String × α)) (uid : String) : Option α :=
  (m.find? (fun e => e.1 == uid)).map (·.2)

/-- Lookup `self.active_connections.get(user_id, set())` as a list of ids. -/
def lookupConns (m : List (String × List ConnId)) (uid : String) : List ConnId :=
  (lookupEntry m uid).getD []

/-- Embeds `ConnectionManager.disconnect(websocket, user_id)`: discard the socket
from the user's set and delete the user's entry once the set is empty. -/
def hubDisconnect (m : List (String × List ConnId)) (c : ConnId)
    (user_id : String) : List (String × List ConnId) :=
  match m.find? (fun e => e.1 == user_id) with
  | none => m
  | some _ =>
    let m' := m.map (fun e =>
      if e.1 == user_id then (e.1, e.2.filter (fun x => x != c)) else e)
    m'.filter (fun e => !(e.1 == user_id && e.2.isEmpty))

/-- Embeds `ConnectionManager.broadcast_to_user(user_id, message)`: sends the message
to every connection in the user's entry (a snapshot copy), counts successes,
and disconnects the failing ones.  Output: the registry afterwards, the list
of connections the message was sent to (attempted sends), and `sent_count`. -/
def broadcast_to_user (sendOk : ConnId → Bool)
    (active_connections : List (String × List ConnId)) (user_id : String) :
    List (String × List ConnId) × List ConnId × Nat :=
  match active_connections.find? (fun e => e.1 == user_id) with
  | none => (active_connections, [], 0)
  | some e =>
    let connections := e.2
    let sent_count := (connections.filter sendOk).length
    let failed_connections := connections.filter (fun c => !sendOk c)
    (failed_connections.foldl (fun m c => hubDisconnect m c user_id)
       active_connections,
     connections, sent_count)

/-- Registry well-formedness maintained by the connect/disconnect paths: a
socket never sits in the connection sets of two different owners. -/
def DisjointRegistry (m : List (String × List ConnId)) : Prop :=
  ∀ e₁ ∈ m, ∀ e₂ ∈ m, e₁.1 ≠ e₂.1 → ∀ x ∈ e₁.2, x ∉ e₂.2

/-- Hub admission state: the connection registry and the per-user connection
timestamps used by the rate limiter. -/
structure ManagerState where
  active_connections : List (String × List ConnId)
  connection_timestamps : List (String × List Int)
deriving Repr

/-- Embeds `_cleanup_rate_limit_window`: keep timestamps within the trailing
`CONNECTION_RATE_LIMIT_WINDOW = 60` units. -/
def cleanup_rate_limit_window (ts : List Int) (now : Int) : List Int :=
  ts.filter (fun t => t > now - 60)

/-- Embeds `ConnectionManager.can_connect(user_id)` at clock `now`, with the deployed
defaults `max_per_user = 3` and `MAX_CONNECTIONS_PER_WINDOW = 10`. -/
def can_connect (st : ManagerState) (user_id : String) (now : Int) :
    Bool × String :=
  let current_count := (lookupConns st.active_connections user_id).length
  if current_count ≥ 3 then
    (false, "Maximum connections (3) reached for user")
  else
    let ts := cleanup_rate_limit_window
      ((lookupEntry st.connection_timestamps user_id).getD []) now
    if ts.length ≥ 10 then
      (false, "Connection rate limit exceeded. Please wait before reconnecting.")
    else (true, "OK")

/-- How a connect attempt on `/ws/{user_id}` resolves before the receive
loop. -/
inductive WsConnectOutcome where
  /-- Close `websocket.close(code=4001, reason="User ID mismatch")`. -/
  | closedMismatch
  /-- Admission by `manager.connect` rejected: `close(code=4003, reason=…)`. -/
  | refused (reason : String)
  /-- Accepted; the welcome frame's `authenticated` field is carried. -/
  | accepted (authenticated : Bool)
deriving DecidableEq, Repr

/-- The admission tail of `websocket_endpoint`: `manager.connect` (which runs
`can_connect`) and, on acceptance, the `connection.established` frame with
`authenticated = authenticated_user_id is not None`. -/
def wsProceed (st : ManagerState) (user_id : String) (now : Int)
    (authenticated : Bool) : WsConnectOutcome :=
  let r := can_connect st user_id now
  if r.1 then .accepted authenticated else .refused r.2

/-- The pre-loop logic of `websocket_endpoint(websocket, user_id, token)`:
token verification (`verify_jwt_token` is the external `verify` oracle),
mismatch close, admission, welcome frame. -/
def websocket_endpoint (verify : String → Option String) (user_id : String)
    (token : Option String) (st : ManagerState) (now : Int) : WsConnectOutcome :=
  match token with
  | some t =>
    match verify t with
    | some authenticated_user_id =>
      if authenticated_user_id ≠ user_id then .closedMismatch
      else wsProceed st user_id now true
    | none => wsProceed st user_id now false
  | none => wsProceed st user_id now false

/-! ## Theorems -/

/-- C8: `validate(pattern, interval)` fails with an error message naming the
bounds exactly when the interval is outside the pattern's range (daily 1–365,
weekly 1–52, monthly 1–12) or the pattern is not one of daily/weekly/monthly,
and succeeds otherwise; in particular `validate(daily, 0)` and
`validate(daily, 366)` fail while `validate(daily, 1)` and
`validate(daily, 365)` succeed. -/
theorem C8_validate_recurrence_pattern_ok_iff :
    (∀ (pattern : String) (interval : Int),
      (validate_recurrence_pattern pattern interval).isOk ↔
        ((pattern = "daily" ∧ 1 ≤ interval ∧ interval ≤ 365) ∨
         (pattern = "weekly" ∧ 1 ≤ interval ∧ interval ≤ 52) ∨
         (pattern = "monthly" ∧ 1 ≤ interval ∧ interval ≤ 12))) ∧
    (∀ interval : Int, ¬ (1 ≤ interval ∧ interval ≤ 365) →
      validate_recurrence_pattern "daily" interval =
        .error ("Daily interval must be 1-365, got " ++ toString interval)) ∧
    (∀ interval : Int, ¬ (1 ≤ interval ∧ interval ≤ 52) →
      validate_recurrence_pattern "weekly" interval =
        .error ("Weekly interval must be 1-52, got " ++ toString interval)) ∧
    (∀ interval : Int, ¬ (1 ≤ interval ∧ interval ≤ 12) →
      validate_recurrence_pattern "monthly" interval =
        .error ("Monthly interval must be 1-12, got " ++ toString interval)) ∧
    (∀ (pattern : String) (interval : Int), pattern ∉ VALID_PATTERNS →
      validate_recurrence_pattern pattern interval =
        .error ("Invalid pattern: " ++ pattern ++ ". Must be one of: daily, weekly, monthly")) ∧
    (validate_recurrence_pattern "daily" 0).isOk = false ∧
    (validate_recurrence_pattern "daily" 366).isOk = false ∧
    (validate_recurrence_pattern "daily" 1).isOk = true ∧
    (validate_recurrence_pattern "daily" 365).isOk = true := by
  refine ⟨?_, ?_, ?_, ?_, ?_, by decide, by decide, by decide, by decide⟩
  · intro pattern interval
    by_cases hd : pattern = "daily"
    · subst hd
      by_cases hi : 1 ≤ interval ∧ interval ≤ 365 <;>
        simp [validate_recurrence_pattern, VALID_PATTERNS, hi, Except.isOk, Except.toBool]
    · by_cases hw : pattern = "weekly"
      · subst hw
        by_cases hi : 1 ≤ interval ∧ interval ≤ 52 <;>
          simp [validate_recurrence_pattern, VALID_PATTERNS, hi, Except.isOk, Except.toBool]
      · by_cases hm : pattern = "monthly"
        · subst hm
          by_cases hi : 1 ≤ interval ∧ interval ≤ 12 <;>
            simp [validate_recurrence_pattern, VALID_PATTERNS, hi, Except.isOk, Except.toBool]
        · simp [validate_recurrence_pattern, VALID_PATTERNS, hd, hw, hm,
            Except.isOk, Except.toBool]
  · intro interval hi
    simp [validate_recurrence_pattern, VALID_PATTERNS, hi]
  · intro interval hi
    simp [validate_recurrence_pattern, VALID_PATTERNS, hi]
  · intro interval hi
    simp [validate_recurrence_pattern, VALID_PATTERNS, hi]
  · intro pattern interval hp
    simp only [VALID_PATTERNS, List.mem_cons, List.not_mem_nil, or_false] at hp
    push_neg at hp
    obtain ⟨h1, h2, h3⟩ := hp
    simp [validate_recurrence_pattern, VALID_PATTERNS, h1, h2, h3]

/-- C8 witness: the bounds-naming failure at the concrete boundary input 366. -/
theorem C8_witness :
    validate_recurrence_pattern "daily" 366 =
      .error ("Daily interval must be 1-365, got " ++ toString (366 : Int)) :=
  C8_validate_recurrence_pattern_ok_iff.2.1 366 (by decide)

/-- C5: for every datetime `d` (with a valid month) and interval `i`,
`next(d, monthly, i)` advances by `i` calendar months (the month counter
`year*12 + (month-1)` grows by exactly `i`), clamps the day to the last valid
day of the target month, and preserves hour/minute/second exactly; in
particular `next(next(2026-01-31 09:30:15, monthly, 1), monthly, 1)` lands in
March with day 28 ≤ 31 (the last day of March) and identical time-of-day. -/
theorem C5_monthly_advance :
    (∀ (d : PyDateTime) (i : Nat), 1 ≤ d.month →
      ∃ e, calculate_next_occurrence d "monthly" i = .ok e ∧
        e.year * 12 + (e.month - 1) = d.year * 12 + (d.month - 1) + i ∧
        1 ≤ e.month ∧ e.month ≤ 12 ∧
        e.day = min d.day (daysInMonth e.year e.month) ∧
        e.hour = d.hour ∧ e.minute = d.minute ∧ e.second = d.second) ∧
    calculate_next_occurrence ⟨2026, 1, 31, 9, 30, 15⟩ "monthly" 1 =
      .ok ⟨2026, 2, 28, 9, 30, 15⟩ ∧
    calculate_next_occurrence ⟨2026, 2, 28, 9, 30, 15⟩ "monthly" 1 =
      .ok ⟨2026, 3, 28, 9, 30, 15⟩ ∧
    daysInMonth 2026 3 = 31 := by
  refine ⟨?_, rfl, rfl, by decide⟩
  intro d i hm
  refine ⟨addMonths d i, rfl, ?_, ?_, ?_, rfl, rfl, rfl, rfl⟩
  · show (d.year * 12 + (d.month - 1) + i) / 12 * 12 +
      ((d.year * 12 + (d.month - 1) + i) % 12 + 1 - 1) =
      d.year * 12 + (d.month - 1) + i
    have h := Nat.div_add_mod (d.year * 12 + (d.month - 1) + i) 12
    omega
  · show 1 ≤ (d.year * 12 + (d.month - 1) + i) % 12 + 1
    omega
  · show (d.year * 12 + (d.month - 1) + i) % 12 + 1 ≤ 12
    have h := Nat.mod_lt (d.year * 12 + (d.month - 1) + i) (by norm_num : (0:ℕ) < 12)
    omega

/-- C5 witness: the universal statement applied at the concrete origin
2026-01-31 09:30:15 with interval 1. -/
theorem C5_witness :
    ∃ e, calculate_next_occurrence ⟨2026, 1, 31, 9, 30, 15⟩ "monthly" 1 = .ok e ∧
      e.year * 12 + (e.month - 1) =
        (2026 : Nat) * 12 + ((1 : Nat) - 1) + 1 ∧
      1 ≤ e.month ∧ e.month ≤ 12 ∧
      e.day = min 31 (daysInMonth e.year e.month) ∧
      e.hour = 9 ∧ e.minute = 30 ∧ e.second = 15 :=
  C5_monthly_advance.1 ⟨2026, 1, 31, 9, 30, 15⟩ 1 (by decide)

/-- Search semantics: `re.search` finds a match exactly when some start position matches. -/
theorem containsUnitMatch_eq_searchUnit_isSome (u : List Char) :
    ∀ cs : List Char, containsUnitMatch u cs = (searchUnit u cs).isSome := by
  intro cs
  induction cs with
  | nil => simp [containsUnitMatch, searchUnit, List.tails, matchUnitAt, List.takeWhile]
  | cons c rest ih =>
    rw [containsUnitMatch, List.tails_cons, List.any_cons, searchUnit]
    cases h : matchUnitAt u (c :: rest) with
    | some n => simp [h]
    | none => simpa [h, containsUnitMatch] using ih

/-- C6 counterexample: `"2 days before noon"` is not of the form
`"<N> <unit> before"` (the spec-side anchored form is false), yet
`parse_reminder_offset` succeeds on it and returns 2 days, because the code
uses `re.search` (substring matching) rather than a full-string match.  This
refutes "parsing succeeds … exactly when s has the form `<N> <unit> before`". -/
theorem C6_counterexample :
    parse_reminder_offset "2 days before noon" = some 172800 ∧
    specOffsetForm "2 days before noon" = false := by
  exact ⟨by decide, by decide⟩

/-- C6 amended: parsing succeeds exactly when the string is nonempty and its
lowercased, stripped form *contains* a substring matching
`(\d+)\s*<unit>s?\s+before` for a unit in {minute, hour, day} (not: is exactly
of that form); the spec's concrete examples hold:
`parse("2 days before") = 2 days`, `parse("1 hour after")` fails, and
`parse("")` fails, with failure signalled by `None`, not an exception. -/
theorem C6_parse_offset_amended :
    (∀ s : String, (parse_reminder_offset s).isSome =
      (s ≠ "" ∧ (containsUnitMatch "minute".data (pyNormalize s) ∨
                 containsUnitMatch "hour".data (pyNormalize s) ∨
                 containsUnitMatch "day".data (pyNormalize s)))) ∧
    parse_reminder_offset "2 days before" = some 172800 ∧
    parse_reminder_offset "1 hour after" = none ∧
    parse_reminder_offset "" = none := by
  refine ⟨?_, by decide, by decide, by decide⟩
  intro s
  by_cases hs : s = ""
  · subst hs
    simp [parse_reminder_offset, containsUnitMatch, pyNormalize,
      List.tails, matchUnitAt, List.takeWhile]
  · rw [parse_reminder_offset, if_neg hs]
    rw [containsUnitMatch_eq_searchUnit_isSome, containsUnitMatch_eq_searchUnit_isSome,
      containsUnitMatch_eq_searchUnit_isSome]
    cases h1 : searchUnit "minute".data (pyNormalize s) <;>
      cases h2 : searchUnit "hour".data (pyNormalize s) <;>
        cases h3 : searchUnit "day".data (pyNormalize s) <;>
          simp [h1, h2, h3, hs]

/-- C7 counterexample: with the clock at 1000 and an aware due date at 4600,
the offset "1 hour before" computes trigger time 1000 — exactly now, hence
*not* strictly in the future — yet `validate_reminder_offset` accepts
(`(True, None)`), because the code only rejects `reminder_time < now`.  This
refutes "rejected whenever the computed trigger time is not strictly in the
future". -/
theorem C7_counterexample :
    parse_reminder_offset "1 hour before" = some 3600 ∧
    (calculate_reminder_time ⟨4600, true⟩ 3600).seconds ≤ 1000 ∧
    validate_reminder_offset "1 hour before" ⟨4600, true⟩ 1000 =
      .ok (true, none) := by
  refine ⟨by decide, by decide, ?_⟩
  rfl

/-- C7 amended: for a parseable offset and a timezone-aware due date, the
validation accepts exactly when the computed trigger time is at or after the
current time (so a trigger strictly in the past is rejected, but a trigger
exactly equal to now is accepted); an unparseable offset and a timezone-naive
due date are rejected with synchronous failure values (`(False, message)`) by
the offset validator and the due-date validator respectively. -/
theorem C7_validation_amended :
    (∀ (s : String) (due : TZDateTime) (now off : Int),
      parse_reminder_offset s = some off → due.aware = true →
      (validate_reminder_offset s due now = .ok (true, none) ↔
        now ≤ due.seconds - off)) ∧
    (∀ (s : String) (due : TZDateTime) (now off : Int),
      parse_reminder_offset s = some off → due.aware = true →
      due.seconds - off < now →
      validate_reminder_offset s due now =
        .ok (false, some ("Reminder time (" ++ toString (due.seconds - off) ++
          ") is in the past. Due date might be too soon or offset too large."))) ∧
    (∀ (s : String) (due : TZDateTime) (now : Int),
      parse_reminder_offset s = none →
      validate_reminder_offset s due now =
        .ok (false, some ("Invalid reminder offset format. " ++
          "Use format like '1 hour before', '30 minutes before', or '1 day before'"))) ∧
    (∀ (due : TZDateTime) (allow_past : Bool) (reference : TZDateTime),
      due.aware = false →
      validate_due_date due allow_past reference =
        (false, some "Due date must be timezone-aware (ISO8601 with timezone)")) := by
  refine ⟨?_, ?_, ?_, ?_⟩
  · intro s due now off hp ha
    rw [validate_reminder_offset, hp]
    simp only [calculate_reminder_time, ha]
    by_cases h : due.seconds - off < now
    · simp [h]
    · simp [h]
      omega
  · intro s due now off hp ha hlt
    rw [validate_reminder_offset, hp]
    simp [calculate_reminder_time, ha, hlt]
  · intro s due now hp
    rw [validate_reminder_offset, hp]
  · intro due allow_past reference ha
    rw [validate_due_date, if_pos ha]

/-- C7 witness: the amended theorem applied at a concrete aware due date 7200,
offset "1 hour before" (3600 s) and clock 0 (trigger 3600 ≥ 0, accepted), and
at a concrete naive due date (rejected with the timezone message). -/
theorem C7_witness :
    validate_reminder_offset "1 hour before" ⟨7200, true⟩ 0 = .ok (true, none) ∧
    validate_due_date ⟨7200, false⟩ false ⟨0, true⟩ =
      (false, some "Due date must be timezone-aware (ISO8601 with timezone)") := by
  constructor
  · exact (C7_validation_amended.1 "1 hour before" ⟨7200, true⟩ 0 3600
      (by decide) rfl).mpr (by decide)
  · exact C7_validation_amended.2.2.2 ⟨7200, false⟩ false ⟨0, true⟩ rfl

/-- C10: a connect whose credential fails verification, and a connect with no
credential, are never refused for authentication reasons: they proceed to the
admission check and, if admitted, get a welcome frame with
`authenticated = false`; conversely the authentication close (code 4001,
"User ID mismatch") occurs only when the credential verifies to a subject
different from the owner id in the path. -/
theorem C10_unauthenticated_connects_admitted :
    ∀ (verify : String → Option String) (user_id : String)
      (token : Option String) (st : ManagerState) (now : Int),
    ((token = none ∨ ∃ t, token = some t ∧ verify t = none) →
      websocket_endpoint verify user_id token st now =
        (if (can_connect st user_id now).1 then .accepted false
         else .refused (can_connect st user_id now).2)) ∧
    (websocket_endpoint verify user_id token st now = .closedMismatch →
      ∃ t subj, token = some t ∧ verify t = some subj ∧ subj ≠ user_id) := by
  intro verify user_id token st now
  constructor
  · rintro (rfl | ⟨t, rfl, hv⟩)
    · simp [websocket_endpoint, wsProceed]
    · simp [websocket_endpoint, hv, wsProceed]
  · intro h
    match htok : token with
    | none =>
      simp [websocket_endpoint, wsProceed] at h
      split at h <;> simp_all
    | some t =>
      match hv : verify t with
      | none =>
        rw [websocket_endpoint, hv] at h
        simp [wsProceed] at h
        split at h <;> simp_all
      | some subj =>
        refine ⟨t, subj, rfl, hv, ?_⟩
        intro hEq
        rw [websocket_endpoint, hv] at h
        simp [hEq, wsProceed] at h
        split at h <;> simp_all

/-- C10 witness: a connect with a token that fails verification, against an
empty admission state, is accepted with `authenticated = false`. -/
theorem C10_witness :
    websocket_endpoint (fun _ => none) "alice" (some "badtoken") ⟨[], []⟩ 0 =
      .accepted false := by
  have h := (C10_unauthenticated_connects_admitted (fun _ => none) "alice"
    (some "badtoken") ⟨[], []⟩ 0).1 (Or.inr ⟨"badtoken", rfl, rfl⟩)
  simpa [can_connect, lookupConns, lookupEntry, cleanup_rate_limit_window] using h

/-- C9: a broadcast for owner A attempts sends only on the connections
registered under A: in any registry whose per-owner connection sets are
disjoint (as the connect/disconnect paths maintain), a connection held by a
different owner B never receives A's event. -/
theorem C9_broadcast_isolation :
    ∀ (sendOk : ConnId → Bool) (ac : List (String × List ConnId))
      (A B : String) (conns : List ConnId) (c : ConnId),
    DisjointRegistry ac → (B, conns) ∈ ac → B ≠ A → c ∈ conns →
    c ∉ (broadcast_to_user sendOk ac A).2.1 := by
  intro sendOk ac A B conns c hdisj hB hBA hc
  rw [broadcast_to_user]
  cases hfind : ac.find? (fun e => e.1 == A) with
  | none => simp
  | some e =>
    simp only
    have hmem : e ∈ ac := List.mem_of_find?_eq_some hfind
    have hA : e.1 = A := by
      have := List.find?_some hfind
      simpa using this
    exact hdisj (B, conns) hB e hmem (by simpa [hA] using hBA) c hc

/-- C9 witness: in the registry {alice ↦ {1}, bob ↦ {2}}, a broadcast to alice
never reaches bob's connection 2. -/
theorem C9_witness :
    (2 : ConnId) ∉
      (broadcast_to_user (fun _ => true) [("alice", [1]), ("bob", [2])] "alice").2.1 := by
  exact C9_broadcast_isolation (fun _ => true) [("alice", [1]), ("bob", [2])]
    "alice" "bob" [2] 2 (by unfold DisjointRegistry; decide) (by decide) (by decide)
    (by decide)

/-- A database holding one pending reminder whose task exists uncompleted,
so a dispatch reaches the webhook delivery branch. -/
def dbPendingReminder : NotificationDB :=
  { reminders := [{ id := 2, task_id := 20, user_id := "bob",
                    reminder_time := 50, status := "pending", sent_at := none,
                    retry_count := 0 }],
    tasks := [{ id := 20, user_id := "bob", title := "w", description := "x",
                completed := false, due_date := some 100 }] }

/-- C4: with the service's `max_retries = 3`, the delivery loop makes at most
4 webhook attempts and the backoff waits between consecutive attempts are
exactly 2, 4, 8; and on a dispatch that reaches the delivery branch (reminder
not yet sent, task present and uncompleted): if the first 2xx occurs at
(0-based) attempt `i`, the reminder ends with `status = "sent"`, `sent_at`
set to now and `retry_count = i` — the number of failed attempts before the
success — after `i + 1` attempts and waits `[2, 4, …, 2^i]` (so success on
attempt 2 gives `retry_count = 1`, success on attempt 4 gives
`retry_count = 3`); if all 4 attempts fail the reminder ends with
`status = "failed"` and `retry_count = 4`, the total attempts made. -/
theorem C4_retry_backoff :
    ∀ (webhook : Nat → WebhookResult) (now : Int) (db : NotificationDB)
      (rid : Nat) (reminder : ReminderRec) (task : TaskRec),
    (deliver_notification_with_retry webhook 3).attempts ≤ 4 ∧
    (∀ i, firstSuccessBefore webhook 4 = some i →
      deliver_notification_with_retry webhook 3 =
        ⟨true, i + 1, i, (List.range i).map (fun k => 2 ^ (k + 1))⟩) ∧
    (firstSuccessBefore webhook 4 = none →
      deliver_notification_with_retry webhook 3 = ⟨false, 4, 4, [2, 4, 8]⟩) ∧
    (findReminder db rid = some reminder → reminder.status ≠ "sent" →
      findTask db reminder.task_id = some task → task.completed = false →
      (∀ i, firstSuccessBefore webhook 4 = some i →
        process_reminder_delivery webhook now db rid =
          (setReminder db
            { reminder with
              status := "sent", sent_at := some now, retry_count := i },
           ⟨.success, "Reminder delivered successfully"⟩, i + 1)) ∧
      (firstSuccessBefore webhook 4 = none →
        process_reminder_delivery webhook now db rid =
          (setReminder db { reminder with status := "failed", retry_count := 4 },
           ⟨.error, "Reminder delivery failed after retries"⟩, 4))) := by
  intro webhook now db rid reminder task
  have hr : List.range 4 = [0, 1, 2, 3] := rfl
  have hloop : (deliver_notification_with_retry webhook 3).attempts ≤ 4 ∧
      (∀ i, firstSuccessBefore webhook 4 = some i →
        deliver_notification_with_retry webhook 3 =
          ⟨true, i + 1, i, (List.range i).map (fun k => 2 ^ (k + 1))⟩) ∧
      (firstSuccessBefore webhook 4 = none →
        deliver_notification_with_retry webhook 3 = ⟨false, 4, 4, [2, 4, 8]⟩) := by
    by_cases h0 : is2xx (webhook 0) <;> by_cases h1 : is2xx (webhook 1) <;>
      by_cases h2 : is2xx (webhook 2) <;> by_cases h3 : is2xx (webhook 3) <;>
      refine ⟨?_, ?_, ?_⟩ <;>
      simp_all [deliver_notification_with_retry, deliverGo, firstSuccessBefore,
        hr, List.find?, List.range_succ, List.map]
  refine ⟨hloop.1, hloop.2.1, hloop.2.2, ?_⟩
  intro hfind hstatus htask hcompleted
  constructor
  · intro i hi
    have hd := hloop.2.1 i hi
    rw [process_reminder_delivery, hfind]
    simp [hstatus, htask, hcompleted, hd]
  · intro hnone
    have hd := hloop.2.2 hnone
    rw [process_reminder_delivery, hfind]
    simp [hstatus, htask, hcompleted, hd]

/-- C4 witness: the spec's scenario — 503 on the first three attempts, 200 on
the fourth, dispatched on a pending reminder with a live uncompleted task —
ends with the stored reminder marked sent, `sent_at` set and
`retry_count = 3` after 4 attempts. -/
theorem C4_witness :
    process_reminder_delivery
        (fun i => if i < 3 then WebhookResult.status 503 else .status 200)
        9 dbPendingReminder 2 =
      (setReminder dbPendingReminder
        { id := 2, task_id := 20, user_id := "bob", reminder_time := 50,
          status := "sent", sent_at := some 9, retry_count := 3 },
       ⟨.success, "Reminder delivered successfully"⟩, 4) := by
  have h := ((C4_retry_backoff
      (fun i => if i < 3 then WebhookResult.status 503 else .status 200)
      9 dbPendingReminder 2
      { id := 2, task_id := 20, user_id := "bob", reminder_time := 50,
        status := "pending", sent_at := none, retry_count := 0 }
      { id := 20, user_id := "bob", title := "w", description := "x",
        completed := false, due_date := some 100 }).2.2.2
    (by decide) (by decide) (by decide) rfl).1 3 (by decide)
  simpa using h

/-- A database holding one reminder whose status is already `"failed"` and
whose task still exists uncompleted. -/
def dbFailedPendingTask : NotificationDB :=
  { reminders := [{ id := 1, task_id := 10, user_id := "alice",
                    reminder_time := 0, status := "failed", sent_at := none,
                    retry_count := 4 }],
    tasks := [{ id := 10, user_id := "alice", title := "t", description := "d",
                completed := false, due_date := some 0 }] }

/-- A database holding one reminder whose status is already `"failed"` and
whose task is completed. -/
def dbFailedCompletedTask : NotificationDB :=
  { reminders := [{ id := 1, task_id := 10, user_id := "alice",
                    reminder_time := 0, status := "failed", sent_at := none,
                    retry_count := 4 }],
    tasks := [{ id := 10, user_id := "alice", title := "t", description := "d",
                completed := true, due_date := some 0 }] }

/-- A database holding one reminder whose status is `"sent"`. -/
def dbSentReminder : NotificationDB :=
  { reminders := [{ id := 1, task_id := 10, user_id := "alice",
                    reminder_time := 0, status := "sent", sent_at := some 3,
                    retry_count := 0 }],
    tasks := [{ id := 10, user_id := "alice", title := "t", description := "d",
                completed := false, due_date := some 0 }] }

/-- C1 counterexample: the dispatcher's idempotency guard tests
`status == "sent"` only, not `status != "pending"`.  On a reminder whose
status is `"failed"` (hence not pending) with a live uncompleted task and a
webhook answering 503, it performs 4 webhook deliveries and returns an error —
not "success without any webhook delivery" as the claim states. -/
theorem C1_counterexample :
    (findReminder dbFailedPendingTask 1).map (fun r => r.status) =
      some "failed" ∧
    (process_reminder_delivery (fun _ => .status 503) 0 dbFailedPendingTask 1).2.2
      = 4 ∧
    (process_reminder_delivery (fun _ => .status 503) 0 dbFailedPendingTask 1).2.1.status
      = .error := by
  refine ⟨by decide, by decide, by decide⟩

/-- C1 amended: if the reminder's status is `"sent"` (not: any non-pending
status) the dispatcher returns success with zero webhook calls; for any other
status (pending *or failed*), if the referenced task is absent the reminder is
marked failed and a non-retryable error is returned with zero webhook calls,
and if the referenced task is completed the reminder is marked sent and
success is returned with zero webhook calls. -/
theorem C1_dispatch_skip_rules_amended :
    ∀ (webhook : Nat → WebhookResult) (now : Int) (db : NotificationDB)
      (rid : Nat) (reminder : ReminderRec),
    findReminder db rid = some reminder →
    (reminder.status = "sent" →
      process_reminder_delivery webhook now db rid =
        (db, ⟨.success, "Reminder already sent (idempotent)"⟩, 0)) ∧
    (reminder.status ≠ "sent" → findTask db reminder.task_id = none →
      process_reminder_delivery webhook now db rid =
        (setReminder db { reminder with status := "failed" },
         ⟨.error, "Task not found (deleted)"⟩, 0)) ∧
    (∀ task, reminder.status ≠ "sent" →
      findTask db reminder.task_id = some task → task.completed = true →
      process_reminder_delivery webhook now db rid =
        (setReminder db { reminder with status := "sent", sent_at := some now },
         ⟨.success, "Task already completed, reminder skipped"⟩, 0)) := by
  intro webhook now db rid reminder hfind
  refine ⟨?_, ?_, ?_⟩
  · intro hs
    rw [process_reminder_delivery, hfind]
    simp [hs]
  · intro hs htask
    rw [process_reminder_delivery, hfind]
    simp [hs, htask]
  · intro task hs htask hc
    rw [process_reminder_delivery, hfind]
    simp [hs, htask, hc]

/-- C1 witness: the amended rules applied to concrete databases — a sent
reminder is skipped with success, and a failed reminder whose task completed
is marked sent with zero webhook calls. -/
theorem C1_witness :
    process_reminder_delivery (fun _ => .status 503) 7 dbSentReminder 1 =
      (dbSentReminder, ⟨.success, "Reminder already sent (idempotent)"⟩, 0) ∧
    process_reminder_delivery (fun _ => .status 503) 7 dbFailedCompletedTask 1 =
      (setReminder dbFailedCompletedTask
        { id := 1, task_id := 10, user_id := "alice", reminder_time := 0,
          status := "sent", sent_at := some 7, retry_count := 4 },
       ⟨.success, "Task already completed, reminder skipped"⟩, 0) := by
  constructor
  · exact (C1_dispatch_skip_rules_amended (fun _ => .status 503) 7 dbSentReminder
      1 { id := 1, task_id := 10, user_id := "alice", reminder_time := 0,
          status := "sent", sent_at := some 3, retry_count := 0 }
      (by decide)).1 rfl
  · exact (C1_dispatch_skip_rules_amended (fun _ => .status 503) 7
      dbFailedCompletedTask 1
      { id := 1, task_id := 10, user_id := "alice", reminder_time := 0,
        status := "failed", sent_at := none, retry_count := 4 }
      (by decide)).2.2
      { id := 10, user_id := "alice", title := "t", description := "d",
        completed := true, due_date := some 0 }
      (by decide) (by decide) rfl

/-- C2 counterexample: `"failed"` is not terminal.  Dispatching a reminder
whose status is `"failed"` while its task is completed sets the status to
`"sent"` — a terminal-to-terminal transition the claim rules out. -/
theorem C2_counterexample :
    (findReminder dbFailedCompletedTask 1).map (fun r => r.status) =
      some "failed" ∧
    ((process_reminder_delivery (fun _ => .status 503) 7 dbFailedCompletedTask 1).1.reminders.find?
        (fun r => r.id == 1)).map (fun r => r.status) = some "sent" := by
  refine ⟨by decide, by decide⟩

/-- C2 amended: only `"sent"` is terminal — once a reminder's status is sent,
a dispatch invocation leaves the whole database unchanged and reports
idempotent success with zero webhook calls; a `"failed"` reminder, by
contrast, is re-processed and can move to `"sent"`. -/
theorem C2_sent_is_terminal_amended :
    ∀ (webhook : Nat → WebhookResult) (now : Int) (db : NotificationDB)
      (rid : Nat) (reminder : ReminderRec),
    findReminder db rid = some reminder → reminder.status = "sent" →
    process_reminder_delivery webhook now db rid =
      (db, ⟨.success, "Reminder already sent (idempotent)"⟩, 0) := by
  intro webhook now db rid reminder hfind hs
  rw [process_reminder_delivery, hfind]
  simp [hs]

/-- C2 witness: the amended terminality applied to a concrete database with a
sent reminder. -/
theorem C2_witness :
    process_reminder_delivery (fun _ => .timeout) 99 dbSentReminder 1 =
      (dbSentReminder, ⟨.success, "Reminder already sent (idempotent)"⟩, 0) :=
  C2_sent_is_terminal_amended (fun _ => .timeout) 99 dbSentReminder 1
    { id := 1, task_id := 10, user_id := "alice", reminder_time := 0,
      status := "sent", sent_at := some 3, retry_count := 0 }
    (by decide) rfl

/-- The task instance the generator inserts: event attributes copied
verbatim, `completed=False`, the computed due date, the same recurrence link,
and a fresh identity. -/
def generatedTask (new_id : Nat) (uid : String) (td : TaskEventData)
    (next : PyDateTime) (rid : Nat) : GTask :=
  { id := new_id, user_id := uid, title := td.title,
    description := td.description, completed := false, priority := td.priority,
    tags := td.tags, due_date := some next, recurrence_id := some rid }

/-- C3: delivering the same completion event twice yields exactly one
non-completed instance for the computed (recurrence link, owner, next due
date) key when none existed before: the first run inserts the instance, and
the second run finds the existing non-completed instance with that key, skips
creation (the store is unchanged) and reports the event as already
processed. -/
theorem C3_generator_idempotent :
    ∀ (rules : List RecurrenceRuleRec) (id1 id2 : Nat) (tasks : List GTask)
      (uid : String) (td : TaskEventData) (rid : Nat)
      (rule : RecurrenceRuleRec) (cur next : PyDateTime),
    rules.find? (fun r => r.id == rid) = some rule →
    td.due_date = some cur →
    calculate_next_occurrence cur rule.pattern rule.interval = .ok next →
    countNextInstances tasks rid uid next = 0 →
    countNextInstances (process_recurring_task rules id1 tasks uid td rid).1
      rid uid next = 1 ∧
    process_recurring_task rules id2
        (process_recurring_task rules id1 tasks uid td rid).1 uid td rid =
      ((process_recurring_task rules id1 tasks uid td rid).1,
       ⟨.SUCCESS, "Next instance already exists (idempotent)"⟩) ∧
    countNextInstances
      (process_recurring_task rules id2
        (process_recurring_task rules id1 tasks uid td rid).1 uid td rid).1
      rid uid next = 1 := by
  intro rules id1 id2 tasks uid td rid rule cur next hrule hdue hcalc hcount
  unfold countNextInstances at hcount
  have hnone : tasks.find? (matchesNextInstance rid uid next) = none := by
    rw [List.find?_eq_none]
    intro x hx
    have h0 := List.countP_eq_zero.mp hcount x hx
    simpa using h0
  have hnew : matchesNextInstance rid uid next
      (generatedTask id1 uid td next rid) = true := by
    simp [matchesNextInstance, generatedTask]
  have h1 : process_recurring_task rules id1 tasks uid td rid =
      (tasks ++ [generatedTask id1 uid td next rid],
       ⟨.SUCCESS, "Next task instance created"⟩) := by
    simp only [process_recurring_task, hrule, hdue, hcalc, hnone, generatedTask]
  have hc1 : countNextInstances
      (process_recurring_task rules id1 tasks uid td rid).1 rid uid next = 1 := by
    rw [h1]
    unfold countNextInstances
    rw [List.countP_append, hcount]
    simp [List.countP_cons, hnew]
  have hfind2 : (process_recurring_task rules id1 tasks uid td rid).1.find?
      (matchesNextInstance rid uid next) =
      some (generatedTask id1 uid td next rid) := by
    rw [h1]
    simp only [List.find?_append, hnone, Option.none_or]
    simp [List.find?, hnew]
  have h2 : process_recurring_task rules id2
      (process_recurring_task rules id1 tasks uid td rid).1 uid td rid =
      ((process_recurring_task rules id1 tasks uid td rid).1,
       ⟨.SUCCESS, "Next instance already exists (idempotent)"⟩) := by
    obtain ⟨l, hl⟩ : ∃ l, (process_recurring_task rules id1 tasks uid td rid).1 = l :=
      ⟨_, rfl⟩
    rw [hl] at hfind2 ⊢
    simp only [process_recurring_task, hrule, hdue, hcalc, hfind2]
  refine ⟨hc1, h2, ?_⟩
  rw [h2]
  exact hc1

/-- C3 witness: a concrete daily rule and event — the first delivery creates
the 2026-01-02 instance, the second reports it as already existing. -/
theorem C3_witness :
    process_recurring_task ([⟨5, "daily", 1⟩] : List RecurrenceRuleRec) 101
        (process_recurring_task [⟨5, "daily", 1⟩] 100 [] "alice"
          ⟨"T", "D", "normal", none, some ⟨2026, 1, 1, 0, 0, 0⟩⟩ 5).1 "alice"
        ⟨"T", "D", "normal", none, some ⟨2026, 1, 1, 0, 0, 0⟩⟩ 5 =
      ((process_recurring_task [⟨5, "daily", 1⟩] 100 [] "alice"
          ⟨"T", "D", "normal", none, some ⟨2026, 1, 1, 0, 0, 0⟩⟩ 5).1,
       ⟨.SUCCESS, "Next instance already exists (idempotent)"⟩) :=
  (C3_generator_idempotent [⟨5, "daily", 1⟩] 100 101 [] "alice"
    ⟨"T", "D", "normal", none, some ⟨2026, 1, 1, 0, 0, 0⟩⟩ 5 ⟨5, "daily", 1⟩
    ⟨2026, 1, 1, 0, 0, 0⟩ ⟨2026, 1, 2, 0, 0, 0⟩ (by decide) rfl rfl
    (by decide)).2.1
